import Mathlib

/-!
Shallow embedding of the commissaire-http dispatch core
(src/commissaire_http/dispatcher/__init__.py together with the pieces of
the repository it uses), and proofs about it.

Python values decoded from JSON bodies are modelled by the inductive
type Json below; Python dicts are modelled as insertion-ordered
association lists, with key assignment replacing the value of an
existing key in place and appending a fresh key at the end, exactly as
CPython dicts behave.  Machine-level concerns (bytes of the WSGI input
stream, the random uuid4 request id) are abstracted: the body stream is
represented by the outcome of json.loads on the bytes read, and the id
is an explicit argument of dispatch.
-/

namespace Commissaire

/-- Values produced by json.loads.  Numbers are modelled as integers
(no claim involves fractional numbers).  The Python conflation of bool
with int under equality is not modelled; no dispatcher comparison mixes
the two. -/
inductive Json where
  | null
  | bool (b : Bool)
  | num (n : Int)
  | str (s : String)
  | arr (elems : List Json)
  | obj (kvs : List (String × Json))
  deriving Repr

mutual

/-- Structural equality on Json values, mirroring the Python equality
used by dict key lookup and by the == comparisons in the dispatcher. -/
def Json.eqb : Json → Json → Bool
  | .null, .null => true
  | .bool a, .bool b => a == b
  | .num a, .num b => a == b
  | .str a, .str b => a == b
  | .arr a, .arr b => Json.eqbArr a b
  | .obj a, .obj b => Json.eqbObj a b
  | _, _ => false

/-- Elementwise equality of Json lists. -/
def Json.eqbArr : List Json → List Json → Bool
  | [], [] => true
  | a :: as, b :: bs => Json.eqb a b && Json.eqbArr as bs
  | _, _ => false

/-- Elementwise equality of Json object entry lists. -/
def Json.eqbObj : List (String × Json) → List (String × Json) → Bool
  | [], [] => true
  | (ka, va) :: as, (kb, vb) :: bs =>
      ka == kb && Json.eqb va vb && Json.eqbObj as bs
  | _, _ => false

end

mutual

/-- Serialization of a Json value in the format produced by json.dumps
with its default separators. -/
def dumps : Json → String
  | .null => "null"
  | .bool true => "true"
  | .bool false => "false"
  | .num n => toString n
  | .str s => "\"" ++ s ++ "\""
  | .arr l => "[" ++ dumpsArr l ++ "]"
  | .obj kvs => "\x7b" ++ dumpsObj kvs ++ "\x7d"

/-- Serialization of the elements of a Json array, comma separated. -/
def dumpsArr : List Json → String
  | [] => ""
  | [j] => dumps j
  | j :: rest => dumps j ++ ", " ++ dumpsArr rest

/-- Serialization of the entries of a Json object, comma separated. -/
def dumpsObj : List (String × Json) → String
  | [] => ""
  | [(k, v)] => "\"" ++ k ++ "\": " ++ dumps v
  | (k, v) :: rest => "\"" ++ k ++ "\": " ++ dumps v ++ ", " ++ dumpsObj rest

end

/-- A Python dict with Json keys and values, as an insertion-ordered
association list with unique keys. -/
abbrev Params := List (Json × Json)

/-- Python dict key assignment: replace the value of an existing key in
place, append a fresh key at the end. -/
def dictSet : Params → Json → Json → Params
  | [], k, v => [(k, v)]
  | p :: rest, k, v =>
      if p.1.eqb k then (k, v) :: rest else p :: dictSet rest k v

/-- Exceptions that can escape the body-merging step of parameter
extraction.  ValueError covers json.decoder.JSONDecodeError, which is a
subclass of it. -/
inductive PyError where
  | typeError
  | valueError
  deriving Repr, DecidableEq

/-- Conversion of one element of a dict-update sequence to the list of
its items, as PySequence_Fast does inside dict.update: numbers,
booleans and null are not iterable (TypeError); a string yields its
characters as one-character strings; a list yields its elements; a dict
yields its keys. -/
def elemAsSeq : Json → Except PyError (List Json)
  | .null => .error .typeError
  | .bool _ => .error .typeError
  | .num _ => .error .typeError
  | .str s => .ok (s.toList.map (fun c => .str (String.singleton c)))
  | .arr l => .ok l
  | .obj kvs => .ok (kvs.map (fun kv => .str kv.1))

/-- Keys of a Python dict must be hashable; lists and dicts are not. -/
def isUnhashable : Json → Bool
  | .arr _ => true
  | .obj _ => true
  | _ => false

/-- Conversion of one element of a dict-update sequence to a key-value
pair, as dict.update does: the element must be iterable (else
TypeError), must have exactly two items (else ValueError), and its
first item must be hashable (else TypeError). -/
def elemToPair (e : Json) : Except PyError (Json × Json) :=
  match elemAsSeq e with
  | .error err => .error err
  | .ok seq =>
    match seq with
    | [k, v] => if isUnhashable k then .error .typeError else .ok (k, v)
    | _ => .error .valueError

/-- The pair-sequence branch of dict.update: elements are processed in
order and inserted one by one, so when an element raises, the pairs
before it have already been merged.  Returns the (possibly partially)
updated dict together with the exception, if any. -/
def dictMergeSeq (m : Params) : List Json → Params × Option PyError
  | [] => (m, none)
  | e :: rest =>
    match elemToPair e with
    | .error err => (m, some err)
    | .ok (k, v) => dictMergeSeq (dictSet m k v) rest

/-- Python dict.update applied to a decoded JSON value: a JSON object
merges its entries (body keys override existing keys); any other value
is treated as a sequence of key-value pairs, which raises TypeError
when the value or one of its elements is not iterable and ValueError
when an element does not have exactly two items; a non-empty string
always raises ValueError at its first character. -/
def dictUpdate (m : Params) (j : Json) : Params × Option PyError :=
  match j with
  | .obj kvs => (kvs.foldl (fun acc kv => dictSet acc (.str kv.1) kv.2) m, none)
  | .str s => (m, if s.isEmpty then none else some .valueError)
  | .arr elems => dictMergeSeq m elems
  | _ => (m, some .typeError)

/-- Lookup in a string-keyed association list, first match wins. -/
def mapGet {α : Type} : List (String × α) → String → Option α
  | [], _ => none
  | p :: rest, k => if p.1 = k then some p.2 else mapGet rest k

/-- Assignment in a string-keyed association list: replace the value of
an existing key in place, append a fresh key at the end (Python dict
assignment). -/
def mapSet {α : Type} : List (String × α) → String → α → List (String × α)
  | [], k, v => [(k, v)]
  | p :: rest, k, v => if p.1 = k then (k, v) :: rest else p :: mapSet rest k v

/-- The WSGI environment fields the dispatcher consumes.  The body
stream is abstracted to the outcome of reading CONTENT_LENGTH bytes and
decoding them with json.loads: none models a ValueError or
JSONDecodeError raised by the decode, some j a successful parse. -/
structure Environ where
  requestMethod : String
  pathInfo : String
  queryString : String
  contentLength : Nat
  wsgiInput : Option Json

/-- Splitting a character list on a separator character; the result
always has one more piece than there are separators. -/
def splitOnChar (sep : Char) (s : List Char) : List (List Char) :=
  s.foldr
    (fun c acc =>
      match acc with
      | [] => [[c]]
      | cur :: rest => if c = sep then [] :: cur :: rest else (c :: cur) :: rest)
    [[]]

/-- Modelled from the spec: parse_query_string is imported from
commissaire_http.handlers, whose module file is not under src/.  Spec
section 4.3 step 3 describes it as parsing the raw query string into a
flat mapping that is merged over the path parameters.  Pairs are the
ampersand-separated key=value components of the string. -/
def parse_query_string (qs : String) : List (String × String) :=
  if qs.isEmpty then []
  else
    (splitOnChar '&' qs.toList).filterMap (fun kv =>
      match splitOnChar '=' kv with
      | [k, v] => some (⟨k⟩, ⟨v⟩)
      | _ => none)

/-- The message bus handle created by setup_bus. -/
structure Bus where
  exchange_name : String
  connection_url : String

/-- The result of routematch for one route: the controller reference,
the optional action tag, and the captured path segment values. -/
structure RouteData where
  minkeys : List String

/-- A handler: receives the jsonrpc message and the bus, and either
returns a Python value (normally a dict) or raises. -/
structure JsonRpcMsg where
  jsonrpc : String
  id : String
  method : String
  params : Params

/-- Outcome of invoking a handler: ok with the returned value, or error
when the handler raised. -/
abbrev Handler := JsonRpcMsg → Bus → Except Unit Json

/-- The controller entry of a matched route: either a direct callable
or the fully qualified name of a registered handler. -/
inductive ControllerRef where
  | callable (h : Handler)
  | name (s : String)

/-- The route dict returned by routematch: the controller, the optional
action tag, and the captured path segment values keyed by segment
name. -/
structure Route where
  controller : ControllerRef
  action : Option String
  pathParams : List (String × String)

/-- Modelled from the spec: JSONRPC_ERRORS is defined in
commissaire_http/constants.py, which is not under src/.  Spec section 6
fixes the kinds BAD_REQUEST, NOT_FOUND and CONFLICT, mapped by the
dispatcher to 400, 404 and 409; the codes are JSON-RPC style integers
(the tests pin the bad-request code to -32602).  Only the distinctness
of the three codes matters to the dispatcher. -/
def JSONRPC_ERRORS (name : String) : Int :=
  if name = "BAD_REQUEST" then -32602
  else if name = "NOT_FOUND" then -32601
  else if name = "CONFLICT" then -32409
  else -32603

/-- The seed mapping of Dispatcher._get_params: one entry per named
path segment of the matched route, in minkeys order, with the captured
string value. -/
def getPathParams (route : Route) (route_data : RouteData) : Params :=
  route_data.minkeys.foldl
    (fun acc k => dictSet acc (.str k) (.str ((mapGet route.pathParams k).getD "")))
    []

/-- Dispatcher._get_params.  Returns the extraction outcome together
with the number of bytes read from the WSGI input stream.  For PUT and
POST with a positive CONTENT_LENGTH the body is read and decoded;
ValueError and JSONDecodeError from decoding or merging are swallowed
(the mapping accumulated so far is returned), while a TypeError raised
by dict.update propagates.  For every other method the query string is
merged instead and the body stream is never read. -/
def get_params (env : Environ) (route : Route) (route_data : RouteData) :
    Except PyError Params × Nat :=
  let params := getPathParams route route_data
  if env.requestMethod = "PUT" ∨ env.requestMethod = "POST" then
    if env.contentLength > 0 then
      match env.wsgiInput with
      | none => (.ok params, env.contentLength)
      | some j =>
        match dictUpdate params j with
        | (p, none) => (.ok p, env.contentLength)
        | (p, some .valueError) => (.ok p, env.contentLength)
        | (_, some .typeError) => (.error .typeError, env.contentLength)
    else (.ok params, 0)
  else
    (.ok ((parse_query_string env.queryString).foldl
        (fun acc kv => dictSet acc (.str kv.1) (.str kv.2)) params), 0)

/-- An HTTP response as the dispatcher produces it: the status line
given to start_response, the single content-type header, and the body
text. -/
structure Response where
  status : String
  contentType : String
  body : String
  deriving Repr, DecidableEq

/-- The generic 404 page. -/
def notFoundResponse : Response :=
  ⟨"404 Not Found", "text/html", "Not Found"⟩

/-- The 400 page produced when parameter extraction raises. -/
def badRequestResponse : Response :=
  ⟨"400 Bad Request", "text/html", "Bad Request"⟩

/-- The catch-all 500 page. -/
def internalErrorResponse : Response :=
  ⟨"500 Internal Server Error", "text/html", "Internal Server Error"⟩

/-- The error raised when dispatch is called before setup_bus. -/
inductive DispatcherError where
  | busNone
  deriving Repr, DecidableEq

/-- The dispatcher state: the router (abstracted to its routematch
function on the request path and environment), the handler registry
map, and the bus handle (none until setup_bus has been called). -/
structure Dispatcher where
  router : String → Environ → Option (Route × RouteData)
  handler_map : List (String × Handler)
  bus : Option Bus

/-- Handler resolution inside dispatch: a callable controller is used
directly, a string controller is looked up in the handler map, where a
missing name yields none (Python dict.get). -/
def resolveHandler (d : Dispatcher) (r : ControllerRef) : Option Handler :=
  match r with
  | .callable h => some h
  | .name s => mapGet d.handler_map s

/-- Translation of a handler return value into the HTTP response, lines
239 to 269 and the surrounding try/except of dispatch.  A non-dict
return value makes result.keys() raise, caught by the catch-all.  An
error entry is mapped through the fixed code table; a code outside the
table, a non-integer code, a missing code entry and a non-dict error
value all end in the catch-all 500.  A result entry answers 200, or 201
for PUT when the route action tag is not the string add.  A dict with
neither key falls through to the generic 404. -/
def translateResult (env : Environ) (route : Route) (result : Json) : Response :=
  match result with
  | .obj kvs =>
    match mapGet kvs "error" with
    | some err =>
      let code? := match err with
        | .obj ekvs => mapGet ekvs "code"
        | _ => none
      match code? with
      | some c =>
        if c.eqb (.num (JSONRPC_ERRORS "BAD_REQUEST")) then
          ⟨"400 Bad Request", "application/json", dumps err⟩
        else if c.eqb (.num (JSONRPC_ERRORS "NOT_FOUND")) then
          ⟨"404 Not Found", "application/json", dumps err⟩
        else if c.eqb (.num (JSONRPC_ERRORS "CONFLICT")) then
          ⟨"409 Conflict", "application/json", dumps err⟩
        else internalErrorResponse
      | none => internalErrorResponse
    | none =>
      match mapGet kvs "result" with
      | some res =>
        let status :=
          if env.requestMethod = "PUT" ∧ route.action ≠ some "add" then
            "201 Created"
          else "200 OK"
        ⟨status, "application/json", dumps res⟩
      | none => notFoundResponse
  | _ => internalErrorResponse

/-- Dispatcher.dispatch.  Raises DispatcherError when the bus handle
was never established; otherwise always answers an HTTP response: 404
when no route matches, 400 when parameter extraction raises, and
otherwise the translation of the handler outcome, where resolving a
missing handler name produces None whose invocation raises TypeError
into the catch-all 500, and a raising handler likewise ends in the
catch-all 500. -/
def dispatch (d : Dispatcher) (env : Environ) (reqId : String) :
    Except DispatcherError Response :=
  match d.bus with
  | none => .error .busNone
  | some b =>
    match d.router env.pathInfo env with
    | none => .ok notFoundResponse
    | some (route, route_data) =>
      match (get_params env route route_data).1 with
      | .error _ => .ok badRequestResponse
      | .ok params =>
        let msg : JsonRpcMsg := ⟨"2.0", reqId, env.requestMethod, params⟩
        match resolveHandler d route.controller with
        | none => .ok internalErrorResponse
        | some h =>
          match h msg b with
          | .error _ => .ok internalErrorResponse
          | .ok result => .ok (translateResult env route result)

/-- The handler registry map built by reload_handlers. -/
abbrev HandlerMap := List (String × Handler)

/-- Exceptions arising while importing a handler package or while
instantiating one of its classes.  The except clause of
reload_handlers catches exactly ImportError; every other exception
propagates out of reload_handlers. -/
inductive LoadExc where
  | importError
  | otherError
  deriving Repr, DecidableEq

/-- A module attribute as classified by reload_handlers: a function
with its parameter count, a class whose zero-argument instantiation
either succeeds with the public attributes of the instance or raises,
or anything else. -/
inductive ModAttr where
  | func (arity : Nat) (h : Handler)
  | cls (instanceAttrs : Except LoadExc (List (String × Handler)))
  | other

/-- One configured handler package: its dotted name and the outcome of
import_module followed by dir enumeration, where error models the
exception import_module raised. -/
structure Package where
  name : String
  members : Except LoadExc (List (String × ModAttr))

/-- Test of ls_mod for protected and internal names: true when the
name starts with an underscore. -/
def isProtected (s : String) : Bool :=
  match s.toList with
  | '_' :: _ => true
  | _ => false

/-- The filter of ls_mod: protected and internal names, those starting
with an underscore, are skipped. -/
def lsMod {α : Type} (members : List (String × α)) : List (String × α) :=
  members.filter (fun p => ¬ isProtected p.1)

/-- Processing of one public module attribute by reload_handlers: a
function is registered under package.item when it takes exactly two
parameters; a class is instantiated and every public instance
attribute is registered under package.item.attr, unless instantiation
raises; other attributes are skipped.  Returns the updated map and the
exception raised, if any. -/
def processMember (pkgName : String) (m : HandlerMap) (mem : String × ModAttr) :
    HandlerMap × Option LoadExc :=
  let mod_path := pkgName ++ "." ++ mem.1
  match mem.2 with
  | .func arity h => (if arity = 2 then mapSet m mod_path h else m, none)
  | .cls (.ok attrs) =>
      ((lsMod attrs).foldl
        (fun acc a => mapSet acc (mod_path ++ "." ++ a.1) a.2) m, none)
  | .cls (.error e) => (m, some e)
  | .other => (m, none)

/-- Sequential processing of the public module attributes: stops at the
first member whose processing raises, keeping the registrations made so
far (the Python loop mutates the map in place). -/
def processMembers (pkgName : String) (m : HandlerMap) :
    List (String × ModAttr) → HandlerMap × Option LoadExc
  | [] => (m, none)
  | mem :: rest =>
    match processMember pkgName m mem with
    | (m2, none) => processMembers pkgName m2 rest
    | (m2, some e) => (m2, some e)

/-- Processing of one handler package by reload_handlers.  The boolean
is true when an exception escaped the per-package try: an ImportError,
whether from import_module or from a class instantiation, is caught and
the package is merely cut short, while any other exception
propagates. -/
def load_pkg (m : HandlerMap) (pkg : Package) : HandlerMap × Bool :=
  match pkg.members with
  | .error .importError => (m, false)
  | .error .otherError => (m, true)
  | .ok mems =>
    match processMembers pkg.name m (lsMod mems) with
    | (m2, none) => (m2, false)
    | (m2, some .importError) => (m2, false)
    | (m2, some .otherError) => (m2, true)

/-- Dispatcher.reload_handlers: folds every configured package into the
existing handler map.  The map is never cleared first, so entries from
an earlier load survive unless overwritten.  The boolean is true when
an uncaught exception aborted the loop; the registrations made before
the abort are kept, since the Python map is mutated in place. -/
def reload_handlers (m : HandlerMap) : List Package → HandlerMap × Bool
  | [] => (m, false)
  | pkg :: rest =>
    match load_pkg m pkg with
    | (m2, false) => reload_handlers m2 rest
    | (m2, true) => (m2, true)

/-! Shared concrete fixtures used by witnesses and counterexamples. -/

/-- A handler that ignores its input and returns null. -/
def dummyHandler : Handler := fun _ _ => .ok .null

/-- A connected bus handle. -/
def busA : Bus := ⟨"commissaire", "redis://127.0.0.1:6379/"⟩

/-- Route data for a single path segment named name. -/
def rdName : RouteData := ⟨["name"]⟩

/-! Helper lemmas about option choice and the association-list map. -/

/-- Left-biased choice on options, the merge combinator of lookups. -/
def optOr {α : Type} : Option α → Option α → Option α
  | some x, _ => some x
  | none, b => b

theorem optOr_none_left {α : Type} (b : Option α) : optOr none b = b := rfl

theorem optOr_assoc {α : Type} (a b c : Option α) :
    optOr (optOr a b) c = optOr a (optOr b c) := by
  cases a <;> rfl

theorem mapGet_nil {α : Type} (k : String) : mapGet ([] : List (String × α)) k = none := rfl

theorem mapGet_mapSet {α : Type} (m : List (String × α)) (k k2 : String) (v : α) :
    mapGet (mapSet m k v) k2 = if k = k2 then some v else mapGet m k2 := by
  induction m with
  | nil => simp [mapSet, mapGet]
  | cons p rest ih =>
    simp only [mapSet]
    by_cases h : p.1 = k
    · rw [if_pos h]
      by_cases h2 : k = k2
      · simp [mapGet, h2]
      · have hp : ¬ p.1 = k2 := by rw [h]; exact h2
        simp [mapGet, h2, hp]
    · rw [if_neg h]
      by_cases h2 : p.1 = k2
      · have hk : ¬ k = k2 := fun he => h (h2.trans he.symm)
        simp [mapGet, h2, hk]
      · simp [mapGet, h2, ih]

/-! Claims C4, C7 and C8: parameter extraction. -/

/-- C4: for every PUT or POST request whose body is present
(Content-Length positive) but is not parseable as JSON, extraction does
not fail: it succeeds and returns exactly the path-derived
parameters. -/
theorem invalid_body_swallowed (env : Environ) (route : Route) (rd : RouteData)
    (hm : env.requestMethod = "PUT" ∨ env.requestMethod = "POST")
    (hcl : 0 < env.contentLength)
    (hbody : env.wsgiInput = none) :
    (get_params env route rd).1 = .ok (getPathParams route rd) := by
  simp [get_params, hm, hcl, hbody]

/-- C4 witness: a POST with a two-byte body that fails to decode
yields exactly the path parameter mapping. -/
theorem invalid_body_swallowed_witness :
    (get_params ⟨"POST", "/api/v0/cluster/honeynut/", "", 2, none⟩
        ⟨.callable dummyHandler, none, [("name", "honeynut")]⟩ rdName).1 =
      .ok [(.str "name", .str "honeynut")] := by
  have := invalid_body_swallowed
    ⟨"POST", "/api/v0/cluster/honeynut/", "", 2, none⟩
    ⟨.callable dummyHandler, none, [("name", "honeynut")]⟩ rdName
    (Or.inr rfl) (by decide) rfl
  simpa using this

/-- C7: for every PUT or POST request with a zero-length body, the
extracted parameter mapping is exactly the mapping of named path
segments, with no query-string or body contribution. -/
theorem zero_length_body_path_only (env : Environ) (route : Route) (rd : RouteData)
    (hm : env.requestMethod = "PUT" ∨ env.requestMethod = "POST")
    (hcl : env.contentLength = 0) :
    get_params env route rd = (.ok (getPathParams route rd), 0) := by
  simp [get_params, hm, hcl]

/-- C7 witness: a PUT with Content-Length zero and a non-empty query
string still yields exactly the path parameter mapping. -/
theorem zero_length_body_path_only_witness :
    get_params ⟨"PUT", "/api/v0/cluster/honeynut/", "x=1", 0, none⟩
        ⟨.callable dummyHandler, none, [("name", "honeynut")]⟩ rdName =
      (.ok [(.str "name", .str "honeynut")], 0) := by
  have := zero_length_body_path_only
    ⟨"PUT", "/api/v0/cluster/honeynut/", "x=1", 0, none⟩
    ⟨.callable dummyHandler, none, [("name", "honeynut")]⟩ rdName
    (Or.inl rfl) rfl
  simpa using this

/-- C8: for every request whose method is neither PUT nor POST,
extraction reads zero bytes from the body stream, whatever its content,
and the result merges exactly the parsed query string over the path
parameters. -/
theorem read_method_reads_no_body (env : Environ) (route : Route) (rd : RouteData)
    (hput : env.requestMethod ≠ "PUT") (hpost : env.requestMethod ≠ "POST") :
    get_params env route rd =
      (.ok ((parse_query_string env.queryString).foldl
          (fun acc kv => dictSet acc (.str kv.1) (.str kv.2))
          (getPathParams route rd)), 0) := by
  have hm : ¬ (env.requestMethod = "PUT" ∨ env.requestMethod = "POST") := by
    intro h; cases h with
    | inl h => exact hput h
    | inr h => exact hpost h
  simp [get_params, hm]

/-- C8 witness: a GET whose body stream would decode fine is never
read, and the query string overrides the path segment of the same
name. -/
theorem read_method_reads_no_body_witness :
    get_params ⟨"GET", "/api/v0/cluster/honeynut/", "name=other&x=1", 9,
        some (.obj [("name", .str "ignored")])⟩
        ⟨.callable dummyHandler, none, [("name", "honeynut")]⟩ rdName =
      (.ok [(.str "name", .str "other"), (.str "x", .str "1")], 0) := by
  have := read_method_reads_no_body
    ⟨"GET", "/api/v0/cluster/honeynut/", "name=other&x=1", 9,
      some (.obj [("name", .str "ignored")])⟩
    ⟨.callable dummyHandler, none, [("name", "honeynut")]⟩ rdName
    (by decide) (by decide)
  simpa using this

/-! Claim C9: the bus guard of dispatch. -/

/-- C9: dispatching with no bus handle raises DispatcherError whatever
the router and request are, before any route matching; once the handle
is set dispatch never raises and always answers a response. -/
theorem dispatch_bus_guard (d : Dispatcher) (env : Environ) (reqId : String) :
    (d.bus = none → dispatch d env reqId = .error .busNone) ∧
    (d.bus ≠ none → ∃ r, dispatch d env reqId = .ok r) := by
  constructor
  · intro h; simp [dispatch, h]
  · intro h
    rcases hb : d.bus with _ | b
    · exact absurd hb h
    · rcases hr : d.router env.pathInfo env with _ | ⟨route, rd⟩
      · exact ⟨notFoundResponse, by simp [dispatch, hb, hr]⟩
      · rcases hp : (get_params env route rd).1 with e | ps
        · exact ⟨badRequestResponse, by simp [dispatch, hb, hr, hp]⟩
        · rcases hres : resolveHandler d route.controller with _ | hh
          · exact ⟨internalErrorResponse, by simp [dispatch, hb, hr, hp, hres]⟩
          · rcases hrun : hh ⟨"2.0", reqId, env.requestMethod, ps⟩ b with _ | result
            · exact ⟨internalErrorResponse, by simp [dispatch, hb, hr, hp, hres, hrun]⟩
            · exact ⟨translateResult env route result, by simp [dispatch, hb, hr, hp, hres, hrun]⟩

/-- C9 witness: a dispatcher with no bus raises on a request its router
would match, and the same dispatcher with a bus answers a response. -/
theorem dispatch_bus_guard_witness :
    dispatch ⟨fun _ _ => some (⟨.callable dummyHandler, none, []⟩, ⟨[]⟩), [], none⟩
        ⟨"GET", "/api/v0/clusters/", "", 0, none⟩ "w9" = .error .busNone ∧
    ∃ r, dispatch ⟨fun _ _ => some (⟨.callable dummyHandler, none, []⟩, ⟨[]⟩), [], some busA⟩
        ⟨"GET", "/api/v0/clusters/", "", 0, none⟩ "w9" = .ok r :=
  ⟨(dispatch_bus_guard _ _ _).1 rfl,
   (dispatch_bus_guard
      ⟨fun _ _ => some (⟨.callable dummyHandler, none, []⟩, ⟨[]⟩), [], some busA⟩
      ⟨"GET", "/api/v0/clusters/", "", 0, none⟩ "w9").2 (by simp)⟩

/-! Claim C1: dispatching to a handler name absent from the registry. -/

/-- A route naming a handler that the registry does not hold. -/
def routeMissing : Route :=
  ⟨.name "commissaire_http.handlers.clusters.get_cluster", none, [("name", "honeynut")]⟩

/-- A dispatcher with an empty registry whose router matches the
cluster path to routeMissing. -/
def dMissing : Dispatcher :=
  ⟨fun p _ => if p = "/api/v0/cluster/honeynut/" then some (routeMissing, rdName) else none,
   [], some busA⟩

/-- A GET of the matched cluster path. -/
def envGetCluster : Environ := ⟨"GET", "/api/v0/cluster/honeynut/", "", 0, none⟩

/-- C1 counterexample: with the named handler absent from the registry,
dispatch answers 500 Internal Server Error, not 404: dict.get yields
None, invoking None raises TypeError, and the catch-all turns that into
the 500 page. -/
theorem missing_handler_not_404 :
    mapGet dMissing.handler_map "commissaire_http.handlers.clusters.get_cluster" = none ∧
    dispatch dMissing envGetCluster "r1" = .ok internalErrorResponse ∧
    internalErrorResponse.status ≠ "404 Not Found" :=
  ⟨rfl, rfl, by decide⟩

/-- C1 amended: for every dispatched request whose matched route
carries a string handlerRef absent from the registry, once parameter
extraction succeeded, dispatch responds with status 500 Internal Server
Error (no registered handler being invoked), not 404. -/
theorem missing_handler_responds_500
    (d : Dispatcher) (env : Environ) (reqId : String) (b : Bus)
    (route : Route) (rd : RouteData) (s : String) (ps : Params)
    (hbus : d.bus = some b)
    (hroute : d.router env.pathInfo env = some (route, rd))
    (hctrl : route.controller = .name s)
    (hmiss : mapGet d.handler_map s = none)
    (hparams : (get_params env route rd).1 = .ok ps) :
    dispatch d env reqId = .ok internalErrorResponse := by
  simp [dispatch, hbus, hroute, hparams, resolveHandler, hctrl, hmiss]

/-- C1 witness: the concrete missing-handler dispatch, through the
amended theorem. -/
theorem missing_handler_responds_500_witness :
    dispatch dMissing envGetCluster "w1" = .ok internalErrorResponse :=
  missing_handler_responds_500 dMissing envGetCluster "w1" busA routeMissing rdName
    "commissaire_http.handlers.clusters.get_cluster" [(.str "name", .str "honeynut")]
    rfl rfl rfl rfl rfl

/-! Claim C2: translation of handler error results. -/

/-- C2: for every handler result carrying an error entry whose code is
an integer, dispatch maps the BAD_REQUEST code to 400, the NOT_FOUND
code to 404 and the CONFLICT code to 409, each with content-type
application/json and the serialized error object as body, and answers
the 500 page for any integer code outside the table, never 200. -/
theorem error_code_table
    (d : Dispatcher) (env : Environ) (reqId : String) (b : Bus)
    (route : Route) (rd : RouteData) (ps : Params) (h : Handler)
    (kvs ekvs : List (String × Json)) (err : Json) (c : Int)
    (hbus : d.bus = some b)
    (hroute : d.router env.pathInfo env = some (route, rd))
    (hparams : (get_params env route rd).1 = .ok ps)
    (hres : resolveHandler d route.controller = some h)
    (hrun : h ⟨"2.0", reqId, env.requestMethod, ps⟩ b = .ok (.obj kvs))
    (herr : mapGet kvs "error" = some err)
    (hedict : err = .obj ekvs)
    (hcode : mapGet ekvs "code" = some (.num c)) :
    (c = JSONRPC_ERRORS "BAD_REQUEST" →
      dispatch d env reqId = .ok ⟨"400 Bad Request", "application/json", dumps err⟩) ∧
    (c = JSONRPC_ERRORS "NOT_FOUND" →
      dispatch d env reqId = .ok ⟨"404 Not Found", "application/json", dumps err⟩) ∧
    (c = JSONRPC_ERRORS "CONFLICT" →
      dispatch d env reqId = .ok ⟨"409 Conflict", "application/json", dumps err⟩) ∧
    (c ≠ JSONRPC_ERRORS "BAD_REQUEST" → c ≠ JSONRPC_ERRORS "NOT_FOUND" →
      c ≠ JSONRPC_ERRORS "CONFLICT" →
      dispatch d env reqId = .ok internalErrorResponse) := by
  subst hedict
  have hd : dispatch d env reqId = .ok (translateResult env route (.obj kvs)) := by
    simp [dispatch, hbus, hroute, hparams, hres, hrun]
  have ht : translateResult env route (.obj kvs) =
      if c = JSONRPC_ERRORS "BAD_REQUEST" then
        ⟨"400 Bad Request", "application/json", dumps (.obj ekvs)⟩
      else if c = JSONRPC_ERRORS "NOT_FOUND" then
        ⟨"404 Not Found", "application/json", dumps (.obj ekvs)⟩
      else if c = JSONRPC_ERRORS "CONFLICT" then
        ⟨"409 Conflict", "application/json", dumps (.obj ekvs)⟩
      else internalErrorResponse := by
    simp [translateResult, herr, hcode, Json.eqb, beq_iff_eq]
  have hBN : JSONRPC_ERRORS "NOT_FOUND" ≠ JSONRPC_ERRORS "BAD_REQUEST" := by decide
  have hCB : JSONRPC_ERRORS "CONFLICT" ≠ JSONRPC_ERRORS "BAD_REQUEST" := by decide
  have hCN : JSONRPC_ERRORS "CONFLICT" ≠ JSONRPC_ERRORS "NOT_FOUND" := by decide
  refine ⟨fun hc => ?_, fun hc => ?_, fun hc => ?_, fun h1 h2 h3 => ?_⟩
  · rw [hd, ht, if_pos hc]
  · rw [hd, ht, if_neg (hc ▸ hBN), if_pos hc]
  · rw [hd, ht, if_neg (hc ▸ hCB), if_neg (hc ▸ hCN), if_pos hc]
  · rw [hd, ht, if_neg h1, if_neg h2, if_neg h3]

/-- A handler answering a conflict error object. -/
def conflictHandler : Handler := fun msg _ =>
  .ok (.obj [("jsonrpc", .str "2.0"), ("id", .str msg.id),
             ("error", .obj [("code", .num (-32409)), ("message", .str "Conflict")])])

/-- A route invoking conflictHandler directly. -/
def routeConflict : Route := ⟨.callable conflictHandler, none, [("name", "honeynut")]⟩

/-- A dispatcher matching everything to routeConflict. -/
def dConflict : Dispatcher := ⟨fun _ _ => some (routeConflict, rdName), [], some busA⟩

/-- C2 witness: the conflict error code answers 409 with the
serialized error object as body. -/
theorem error_code_table_witness :
    dispatch dConflict envGetCluster "w2" =
      .ok ⟨"409 Conflict", "application/json",
        dumps (.obj [("code", .num (-32409)), ("message", .str "Conflict")])⟩ :=
  (error_code_table dConflict envGetCluster "w2" busA routeConflict rdName
    [(.str "name", .str "honeynut")] conflictHandler
    [("jsonrpc", .str "2.0"), ("id", .str "w2"),
     ("error", .obj [("code", .num (-32409)), ("message", .str "Conflict")])]
    [("code", .num (-32409)), ("message", .str "Conflict")]
    (.obj [("code", .num (-32409)), ("message", .str "Conflict")]) (-32409)
    rfl rfl rfl rfl rfl rfl rfl rfl).2.2.1 rfl

/-! Claim C3: translation of handler success results. -/

/-- C3: for every handler result carrying a result entry and no error
entry, dispatch answers the serialized result with content-type
application/json, with status 201 Created exactly when the method is
PUT and the route action tag is not the string add (in particular when
the route has no action tag), and 200 OK otherwise. -/
theorem result_status_mapping
    (d : Dispatcher) (env : Environ) (reqId : String) (b : Bus)
    (route : Route) (rd : RouteData) (ps : Params) (h : Handler)
    (kvs : List (String × Json)) (res : Json)
    (hbus : d.bus = some b)
    (hroute : d.router env.pathInfo env = some (route, rd))
    (hparams : (get_params env route rd).1 = .ok ps)
    (hres : resolveHandler d route.controller = some h)
    (hrun : h ⟨"2.0", reqId, env.requestMethod, ps⟩ b = .ok (.obj kvs))
    (herr : mapGet kvs "error" = none)
    (hresult : mapGet kvs "result" = some res) :
    dispatch d env reqId =
      .ok ⟨if env.requestMethod = "PUT" ∧ route.action ≠ some "add" then "201 Created"
           else "200 OK",
           "application/json", dumps res⟩ := by
  have hd : dispatch d env reqId = .ok (translateResult env route (.obj kvs)) := by
    simp [dispatch, hbus, hroute, hparams, hres, hrun]
  rw [hd]
  simp [translateResult, herr, hresult]

/-- A handler answering the host list result of the add-hosts
scenario. -/
def addHostsHandler : Handler := fun msg _ =>
  .ok (.obj [("jsonrpc", .str "2.0"), ("id", .str msg.id), ("result", .arr [.str "h1"])])

/-- The add-hosts route, tagged with the action add. -/
def routeAddHosts : Route := ⟨.callable addHostsHandler, some "add", [("name", "honeynut")]⟩

/-- A dispatcher matching everything to routeAddHosts. -/
def dAddHosts : Dispatcher := ⟨fun _ _ => some (routeAddHosts, rdName), [], some busA⟩

/-- A handler answering a created cluster object. -/
def createClusterHandler : Handler := fun msg _ =>
  .ok (.obj [("jsonrpc", .str "2.0"), ("id", .str msg.id),
             ("result", .obj [("name", .str "x")])])

/-- The create-cluster route, with no action tag. -/
def routeCreate : Route := ⟨.callable createClusterHandler, none, [("name", "honeynut")]⟩

/-- A dispatcher matching everything to routeCreate. -/
def dCreate : Dispatcher := ⟨fun _ _ => some (routeCreate, rdName), [], some busA⟩

/-- A PUT of the cluster hosts path with an empty body. -/
def envPutHosts : Environ := ⟨"PUT", "/api/v0/cluster/honeynut/hosts/", "", 0, none⟩

/-- C3 witness: a PUT on the action add route answers 200, and a PUT on
a route with no action tag answers 201, each with the serialized
result. -/
theorem result_status_mapping_witness :
    dispatch dAddHosts envPutHosts "w3" =
      .ok ⟨"200 OK", "application/json", "[\"h1\"]"⟩ ∧
    dispatch dCreate envPutHosts "w3b" =
      .ok ⟨"201 Created", "application/json", "\x7b\"name\": \"x\"\x7d"⟩ := by
  constructor
  · have h := result_status_mapping dAddHosts envPutHosts "w3" busA routeAddHosts rdName
      [(.str "name", .str "honeynut")] addHostsHandler
      [("jsonrpc", .str "2.0"), ("id", .str "w3"), ("result", .arr [.str "h1"])]
      (.arr [.str "h1"]) rfl rfl rfl rfl rfl rfl rfl
    rw [h]; rfl
  · have h := result_status_mapping dCreate envPutHosts "w3b" busA routeCreate rdName
      [(.str "name", .str "honeynut")] createClusterHandler
      [("jsonrpc", .str "2.0"), ("id", .str "w3b"), ("result", .obj [("name", .str "x")])]
      (.obj [("name", .str "x")]) rfl rfl rfl rfl rfl rfl rfl
    rw [h]; rfl

/-! Claim C10: non-object JSON bodies during extraction. -/

/-- A handler answering an empty list result. -/
def okHandler : Handler := fun msg _ =>
  .ok (.obj [("jsonrpc", .str "2.0"), ("id", .str msg.id), ("result", .arr [])])

/-- A route invoking okHandler, tagged add so a PUT answers 200. -/
def routeC10 : Route := ⟨.callable okHandler, some "add", [("name", "honeynut")]⟩

/-- A dispatcher matching everything to routeC10. -/
def dC10 : Dispatcher := ⟨fun _ _ => some (routeC10, rdName), [], some busA⟩

/-- A PUT whose body is the two-character JSON string ab. -/
def envPutJsonStr : Environ := ⟨"PUT", "/api/v0/cluster/honeynut/", "", 4, some (.str "ab")⟩

/-- C10 counterexample: a JSON string body is neither an object nor a
sequence of key-value pairs, yet merging it raises ValueError, which
extraction swallows like a parse failure: extraction succeeds with the
path parameters alone and dispatch proceeds to the handler, answering
200 rather than 400 Bad Request. -/
theorem json_string_body_not_400 :
    envPutJsonStr.wsgiInput = some (.str "ab") ∧
    (get_params envPutJsonStr routeC10 rdName).1 = .ok [(.str "name", .str "honeynut")] ∧
    dispatch dC10 envPutJsonStr "r10" = .ok ⟨"200 OK", "application/json", "[]"⟩ :=
  ⟨rfl, rfl, rfl⟩

/-- C10 amended: merging a JSON body that is not iterable, null, a
boolean or a number, raises TypeError, which extraction does not
swallow, and dispatch answers 400 Bad Request with body Bad Request; a
JSON string body instead raises ValueError, which is swallowed like a
parse failure, extraction succeeding with the path-derived
parameters. -/
theorem non_iterable_json_body_400
    (d : Dispatcher) (env : Environ) (reqId : String) (b : Bus)
    (route : Route) (rd : RouteData) (j : Json)
    (hbus : d.bus = some b)
    (hroute : d.router env.pathInfo env = some (route, rd))
    (hm : env.requestMethod = "PUT" ∨ env.requestMethod = "POST")
    (hcl : 0 < env.contentLength)
    (hbody : env.wsgiInput = some j)
    (hj : j = .null ∨ (∃ bb, j = .bool bb) ∨ (∃ n, j = .num n)) :
    dispatch d env reqId = .ok badRequestResponse := by
  have hgp : (get_params env route rd).1 = .error .typeError := by
    rcases hj with hh | ⟨bb, hh⟩ | ⟨n, hh⟩ <;> subst hh <;>
      simp [get_params, hm, hcl, hbody, dictUpdate]
  simp [dispatch, hbus, hroute, hgp]

/-- A PUT whose body is the JSON number 5, the one-byte body 5. -/
def envPutNum : Environ := ⟨"PUT", "/api/v0/cluster/honeynut/", "", 1, some (.num 5)⟩

/-- C10 witness: the body 5 makes dispatch answer 400 Bad Request. -/
theorem non_iterable_json_body_400_witness :
    dispatch dC10 envPutNum "w10" = .ok badRequestResponse :=
  non_iterable_json_body_400 dC10 envPutNum "w10" busA routeC10 rdName (.num 5)
    rfl rfl (Or.inl rfl) (by decide) rfl (Or.inr (Or.inr ⟨5, rfl⟩))

/-! Claims C5 and C6: the handler registry reload. -/

/-- A registry transformer f merges over its input: looking a key up in
f m is looking it up first among the entries f registers from scratch
and then, failing that, in m. -/
def Merges (f : HandlerMap → HandlerMap) : Prop :=
  ∀ m k, mapGet (f m) k = optOr (mapGet (f []) k) (mapGet m k)

theorem merges_id : Merges (fun m => m) := by
  intro m k
  simp [mapGet, optOr]

theorem merges_mapSet (k2 : String) (v : Handler) : Merges (fun m => mapSet m k2 v) := by
  intro m k
  rw [mapGet_mapSet, mapGet_mapSet]
  by_cases h : k2 = k <;> simp [h, mapGet, optOr]

theorem merges_comp {f g : HandlerMap → HandlerMap} (hf : Merges f) (hg : Merges g) :
    Merges (fun m => g (f m)) := by
  intro m k
  rw [hg (f m) k, hg (f []) k, hf m k, optOr_assoc]

theorem merges_foldl {β : Type} (step : HandlerMap → β → HandlerMap)
    (hstep : ∀ x, Merges (fun m => step m x)) (l : List β) :
    Merges (fun m => l.foldl step m) := by
  induction l with
  | nil => exact merges_id
  | cons x xs ih => exact merges_comp (hstep x) ih

theorem processMember_snd (n : String) (mem : String × ModAttr) (m : HandlerMap) :
    (processMember n m mem).2 = (processMember n [] mem).2 := by
  obtain ⟨a, attr⟩ := mem
  cases attr with
  | func arity h => rfl
  | cls r => cases r <;> rfl
  | other => rfl

theorem merges_processMember (n : String) (mem : String × ModAttr) :
    Merges (fun m => (processMember n m mem).1) := by
  obtain ⟨a, attr⟩ := mem
  cases attr with
  | func arity h =>
    by_cases h2 : arity = 2
    · simpa [processMember, h2] using merges_mapSet (n ++ "." ++ a) h
    · simpa [processMember, h2] using merges_id
  | cls r =>
    cases r with
    | ok attrs =>
      simpa [processMember] using
        merges_foldl (fun acc p => mapSet acc (n ++ "." ++ a ++ "." ++ p.1) p.2)
          (fun x => merges_mapSet _ _) (lsMod attrs)
    | error e => simpa [processMember] using merges_id
  | other => simpa [processMember] using merges_id

theorem processMembers_snd (n : String) (mems : List (String × ModAttr)) (m : HandlerMap) :
    (processMembers n m mems).2 = (processMembers n [] mems).2 := by
  induction mems generalizing m with
  | nil => rfl
  | cons mem rest ih =>
    have h1 := processMember_snd n mem m
    rcases hA : processMember n m mem with ⟨mA, fA⟩
    rcases hB : processMember n [] mem with ⟨mB, fB⟩
    rw [hA, hB] at h1
    simp only at h1
    subst h1
    cases fA with
    | none =>
      simp only [processMembers, hA, hB]
      rw [ih mA, ih mB]
    | some e => simp [processMembers, hA, hB]

theorem merges_processMembers (n : String) (mems : List (String × ModAttr)) :
    Merges (fun m => (processMembers n m mems).1) := by
  induction mems with
  | nil => exact merges_id
  | cons mem rest ih =>
    intro m k
    have h1 := processMember_snd n mem m
    rcases hA : processMember n m mem with ⟨mA, fA⟩
    rcases hB : processMember n [] mem with ⟨mB, fB⟩
    rw [hA, hB] at h1
    simp only at h1
    subst h1
    have hmem : ∀ m2, (processMember n m2 mem).1 =
        (fun m2 => (processMember n m2 mem).1) m2 := fun _ => rfl
    cases fA with
    | none =>
      simp only [processMembers, hA, hB]
      have hcomp := merges_comp (merges_processMember n mem)
        (f := fun m2 => (processMember n m2 mem).1) ih
      have := hcomp m k
      simp only [hA, hB] at this
      exact this
    | some e =>
      simp only [processMembers, hA, hB]
      have := merges_processMember n mem m k
      simp only [hA, hB] at this
      exact this

theorem load_pkg_snd (pkg : Package) (m : HandlerMap) :
    (load_pkg m pkg).2 = (load_pkg [] pkg).2 := by
  cases hmem : pkg.members with
  | error e => cases e <;> simp [load_pkg, hmem]
  | ok mems =>
    have h1 := processMembers_snd pkg.name (lsMod mems) m
    rcases hA : processMembers pkg.name m (lsMod mems) with ⟨mA, fA⟩
    rcases hB : processMembers pkg.name [] (lsMod mems) with ⟨mB, fB⟩
    rw [hA, hB] at h1
    simp only at h1
    subst h1
    cases fA with
    | none => simp [load_pkg, hmem, hA, hB]
    | some e => cases e <;> simp [load_pkg, hmem, hA, hB]

theorem merges_load_pkg (pkg : Package) : Merges (fun m => (load_pkg m pkg).1) := by
  cases hmem : pkg.members with
  | error e =>
    cases e <;> intro m k <;> simp [load_pkg, hmem, mapGet, optOr]
  | ok mems =>
    intro m k
    have hm : mapGet (processMembers pkg.name m (lsMod mems)).1 k =
        optOr (mapGet (processMembers pkg.name [] (lsMod mems)).1 k) (mapGet m k) :=
      merges_processMembers pkg.name (lsMod mems) m k
    have h1 := processMembers_snd pkg.name (lsMod mems) m
    rcases hA : processMembers pkg.name m (lsMod mems) with ⟨mA, fA⟩
    rcases hB : processMembers pkg.name [] (lsMod mems) with ⟨mB, fB⟩
    rw [hA, hB] at h1
    simp only at h1
    subst h1
    rw [hA, hB] at hm
    simp only at hm
    have hfst : ∀ m2 m3 f, processMembers pkg.name m2 (lsMod mems) = (m3, f) →
        (load_pkg m2 pkg).1 = m3 := by
      intro m2 m3 f hp
      cases f with
      | none => simp [load_pkg, hmem, hp]
      | some e => cases e <;> simp [load_pkg, hmem, hp]
    show mapGet (load_pkg m pkg).1 k = optOr (mapGet (load_pkg [] pkg).1 k) (mapGet m k)
    rw [hfst m mA fA hA, hfst [] mB fA hB]
    exact hm

theorem reload_handlers_snd (pkgs : List Package) (m : HandlerMap) :
    (reload_handlers m pkgs).2 = (reload_handlers [] pkgs).2 := by
  induction pkgs generalizing m with
  | nil => rfl
  | cons pkg rest ih =>
    have h1 := load_pkg_snd pkg m
    rcases hA : load_pkg m pkg with ⟨mA, fA⟩
    rcases hB : load_pkg [] pkg with ⟨mB, fB⟩
    rw [hA, hB] at h1
    simp only at h1
    subst h1
    cases fA with
    | false =>
      simp only [reload_handlers, hA, hB]
      rw [ih mA, ih mB]
    | true => simp [reload_handlers, hA, hB]

theorem merges_reload_handlers (pkgs : List Package) :
    Merges (fun m => (reload_handlers m pkgs).1) := by
  induction pkgs with
  | nil => exact merges_id
  | cons pkg rest ih =>
    intro m k
    have h1 := load_pkg_snd pkg m
    rcases hA : load_pkg m pkg with ⟨mA, fA⟩
    rcases hB : load_pkg [] pkg with ⟨mB, fB⟩
    rw [hA, hB] at h1
    simp only at h1
    subst h1
    cases fA with
    | false =>
      simp only [reload_handlers, hA, hB]
      have hcomp := merges_comp (merges_load_pkg pkg)
        (f := fun m2 => (load_pkg m2 pkg).1) ih
      have := hcomp m k
      simp only [hA, hB] at this
      exact this
    | true =>
      simp only [reload_handlers, hA, hB]
      have := merges_load_pkg pkg m k
      simp only [hA, hB] at this
      exact this

/-- C5 amended: reload_handlers merges the freshly loaded entries into
the existing registry instead of rebuilding it: a lookup after reload
answers the fresh registration when the current collections register
the name, and otherwise the surviving previous entry.  In particular an
entry from a previous load that the current collections do not register
survives the reload. -/
theorem reload_handlers_is_merge (pkgs : List Package) (m : HandlerMap) (k : String) :
    mapGet (reload_handlers m pkgs).1 k =
      optOr (mapGet (reload_handlers [] pkgs).1 k) (mapGet m k) :=
  merges_reload_handlers pkgs m k

/-- A well-formed package registering the single function handler h. -/
def goodPkg : Package := ⟨"pkgB", .ok [("h", .func 2 dummyHandler)]⟩

/-- C5 counterexample: reloading a registry that still holds a stale
entry over a collection list that does not register it leaves the stale
entry in place, so the reloaded registry differs from the one produced
by a fresh load of the same collections. -/
theorem reload_handlers_not_wholesale :
    (reload_handlers [("old.h", dummyHandler)] [goodPkg]).1 ≠
      (reload_handlers [] [goodPkg]).1 ∧
    mapGet (reload_handlers [("old.h", dummyHandler)] [goodPkg]).1 "old.h" =
      some dummyHandler ∧
    mapGet (reload_handlers [] [goodPkg]).1 "old.h" = none := by
  refine ⟨fun he => ?_, rfl, rfl⟩
  have h1 : (reload_handlers [("old.h", dummyHandler)] [goodPkg]).1 =
      [("old.h", dummyHandler), ("pkgB.h", dummyHandler)] := rfl
  have h2 : (reload_handlers [] [goodPkg]).1 = [("pkgB.h", dummyHandler)] := rfl
  rw [h1, h2] at he
  have := congrArg List.length he
  simp at this

/-- C6 counterexample: a collection whose import raises an exception
other than ImportError aborts registry construction: the loop stops,
the exception escapes, and the qualifying member of the following
collection is never registered, although a load without the failing
collection registers it. -/
theorem load_abort_cex :
    (reload_handlers [] [⟨"pkgA", .error .otherError⟩, goodPkg]).2 = true ∧
    mapGet (reload_handlers [] [⟨"pkgA", .error .otherError⟩, goodPkg]).1 "pkgB.h" = none ∧
    (reload_handlers [] [goodPkg]).2 = false ∧
    mapGet (reload_handlers [] [goodPkg]).1 "pkgB.h" = some dummyHandler :=
  ⟨rfl, rfl, rfl, rfl⟩

/-- C6 amended: a collection whose import or load raises ImportError,
the exception import_module fails with, is logged and omitted and every
other collection contributes exactly as it would without it;
construction only survives other exceptions by not encountering them,
since the except clause catches ImportError alone. -/
theorem import_error_package_skipped (m : HandlerMap) (ps qs : List Package)
    (bad : Package) (h : bad.members = .error .importError) :
    reload_handlers m (ps ++ bad :: qs) = reload_handlers m (ps ++ qs) := by
  induction ps generalizing m with
  | nil => simp [reload_handlers, load_pkg, h]
  | cons p rest ih =>
    rcases hl : load_pkg m p with ⟨m2, flag⟩
    cases flag with
    | false => simpa [reload_handlers, hl] using ih m2
    | true => simp [reload_handlers, hl]

/-- C6 witness: dropping a concrete ImportError collection from the
list leaves the loaded registry unchanged. -/
theorem import_error_package_skipped_witness :
    reload_handlers [] ([goodPkg] ++ Package.mk "pkgA" (.error .importError) :: []) =
      reload_handlers [] ([goodPkg] ++ []) :=
  import_error_package_skipped [] [goodPkg] [] (Package.mk "pkgA" (.error .importError)) rfl

end Commissaire
